import Mathlib

/-!
Verification of the NiBetaSeries workflow-assembly layer
(`src/nibetaseries/workflows/base.py`).

Two pieces of the source are embedded:

* the trial-count filter `_check_bs_len` (with its inner helper
  `check_beta_series` and the regex label extraction
  `re.match(".*desc-(?P<trial_type>[0-9A-Za-z]+)_.*", path)`), and
* the conditional graph construction performed by `init_single_subject_wf`
  (which optional nodes and `workflow.connect` edges are added, depending
  on `atlas_img`/`atlas_lut` truthiness and the `return_residuals` flag).

Reading an image's shape (`nib.load(path).shape[-1]`) is the filter's only
I/O; it is modelled by carrying the trailing dimension as a field of the
artifact.  `logging.warning` calls are modelled by returning the list of
warning messages.  The Python list that `_check_bs_len` mutates in place
(`beta_series_list[:] = ...`) is modelled by explicit state passing: the
outcome records both the final contents of the caller's list object and the
returned value.
-/

namespace NiBetaSeries

/-- A beta-series artifact: a file path together with the trailing dimension
of the image stored at that path (`nib.load(beta_series).shape[-1]` in the
source, base.py line 428).  The shape read is the only I/O performed, so the
trailing dimension is carried as data. -/
structure BetaSeriesArtifact where
  path : String
  trialCount : Nat
deriving DecidableEq

/-- The character class `[0-9A-Za-z]` of the source regex
`.*desc-(?P<trial_type>[0-9A-Za-z]+)_.*` (base.py line 430). -/
def isAlnumAscii (c : Char) : Bool :=
  ('0' ≤ c && c ≤ '9') || ('A' ≤ c && c ≤ 'Z') || ('a' ≤ c && c ≤ 'z')

/-- The maximal run of `[0-9A-Za-z]` characters at the head of the list:
what the greedy group `(?P<trial_type>[0-9A-Za-z]+)` consumes at a given
position. -/
def takeAlnum : List Char → List Char
  | [] => []
  | c :: cs => if isAlnumAscii c then c :: takeAlnum cs else []

/-- Matching `desc-(?P<trial_type>[0-9A-Za-z]+)_` at the head of the list.
The greedy group takes the maximal alphanumeric run; since no character of
the run is an underscore, backtracking inside the run can never make the
following literal `_` match, so the segment matches exactly when the maximal
run is nonempty and the character directly after it is `_`.  The trailing
`.*` of the source pattern can always match (possibly the empty string), so
it imposes no condition. -/
def matchDescAt (s : List Char) : Option (List Char) :=
  match s with
  | 'd' :: 'e' :: 's' :: 'c' :: '-' :: rest =>
      let run := takeAlnum rest
      if run.isEmpty then none
      else
        match rest.drop run.length with
        | '_' :: _ => some run
        | _ => none
  | _ => none

/-- Embedding of `re.match(".*desc-(?P<trial_type>[0-9A-Za-z]+)_.*", s)`
(base.py line 430), returning the captured `trial_type` group.  `re.match`
anchors at the start; the leading greedy `.*` consumes as much as possible
and backtracks, so candidate start positions for `desc-` are tried from
right to left, and the first (i.e. rightmost) position where the segment
matches wins.  In Python `.` does not match a newline, so the leading `.*`
cannot advance past the first newline character: a position is only
reachable while no newline has been crossed. -/
def reMatchDesc : List Char → Option (List Char)
  | [] => none
  | c :: cs =>
      if c = '\n' then matchDescAt (c :: cs)
      else
        match reMatchDesc cs with
        | some l => some l
        | none => matchDescAt (c :: cs)

/-- The warning `logging.warning("this file: {file} contains an unknown
trial_type".format(file=beta_series))` (base.py lines 435-436), rendered. -/
def unknownWarning (file : String) : String :=
  "this file: " ++ file ++ " contains an unknown trial_type"

/-- The warning `logging.warning('At least {min_size} trials are needed for
a beta series: {trial_type} has {num}')` (base.py lines 437-442),
rendered. -/
def sizeWarning (m : Nat) (trial_type : String) (num : Nat) : String :=
  "At least " ++ toString m ++ " trials are needed for a beta series: " ++
    trial_type ++ " has " ++ toString num

/-- The warnings emitted on the exclusion branch of `check_beta_series`
(base.py lines 430-442): the trial type is extracted from the whole path by
the regex; when it does not match, the label is `UNKNOWN` and an extra
warning is emitted first. -/
def exclusionWarnings (beta_series : BetaSeriesArtifact) (m : Nat) :
    List String :=
  match reMatchDesc beta_series.path.toList with
  | some l => [sizeWarning m (String.mk l) beta_series.trialCount]
  | none => [unknownWarning beta_series.path,
             sizeWarning m "UNKNOWN" beta_series.trialCount]

/-- The inner helper `check_beta_series(beta_series, min_size)` (base.py
lines 427-444): compares the trailing dimension against `min_size`; on the
small side it determines the label, logs, and returns `False`, otherwise it
returns `True` without touching the regex or the log.  The returned pair is
(kept?, warnings logged). -/
def check_beta_series (beta_series : BetaSeriesArtifact) (min_size : Nat) :
    Bool × List String :=
  if beta_series.trialCount < min_size then
    (false, exclusionWarnings beta_series min_size)
  else
    (true, [])

/-- The constant `min_size = 3` of `_check_bs_len` (base.py line 425). -/
def min_size : Nat := 3

/-- The list comprehension
`[bs for bs in beta_series_list if check_beta_series(bs, min_size=min_size)]`
(base.py lines 446-447): the survivors, in original order. -/
def filteredOf (l : List BetaSeriesArtifact) : List BetaSeriesArtifact :=
  l.filter (fun bs => (check_beta_series bs min_size).1)

/-- The warnings logged while the comprehension of base.py lines 446-447
runs, in order (the comprehension calls `check_beta_series` once per element
from left to right). -/
def warningsOf (l : List BetaSeriesArtifact) : List String :=
  (l.map (fun bs => (check_beta_series bs min_size).2)).flatten

/-- Outcome of `_check_bs_len`: either a normal return or a raised
`RuntimeError`.  In both cases `state` is the final contents of the caller's
list object (the slice assignment `beta_series_list[:] = ...` runs before
the emptiness test, so it has happened even on the raising path), `ret` is
the returned value, and `warnings` the log messages emitted. -/
inductive FilterOutcome where
  | ok (state ret : List BetaSeriesArtifact) (warnings : List String)
  | err (state : List BetaSeriesArtifact) (msg : String)
        (warnings : List String)
deriving DecidableEq

/-- Embedding of `_check_bs_len(beta_series_list)` (base.py lines 418-452):
filter the list in place, then raise
`RuntimeError("None of the beta series have at least {num} betas.")` if
nothing survived, else return the (mutated) list. -/
def check_bs_len (beta_series_list : List BetaSeriesArtifact) :
    FilterOutcome :=
  if (filteredOf beta_series_list).isEmpty then
    FilterOutcome.err (filteredOf beta_series_list)
      ("None of the beta series have at least " ++ toString min_size ++
        " betas.")
      (warningsOf beta_series_list)
  else
    FilterOutcome.ok (filteredOf beta_series_list)
      (filteredOf beta_series_list) (warningsOf beta_series_list)

/-- Final contents of the caller's list object after the call. -/
def stateOf : FilterOutcome → List BetaSeriesArtifact
  | FilterOutcome.ok st _ _ => st
  | FilterOutcome.err st _ _ => st

/-- Whether the call raised. -/
def isErr : FilterOutcome → Bool
  | FilterOutcome.ok _ _ _ => false
  | FilterOutcome.err _ _ _ => true

/-- The returned value, when the call returned. -/
def resultOf : FilterOutcome → Option (List BetaSeriesArtifact)
  | FilterOutcome.ok _ ret _ => some ret
  | FilterOutcome.err _ _ _ => none

/-- Boolean form of "every artifact has trial count at least `n`". -/
def allAtLeast (n : Nat) (l : List BetaSeriesArtifact) : Bool :=
  l.all (fun bs => decide (n ≤ bs.trialCount))

/-- Boolean form of "every artifact has trial count below `n`". -/
def allBelow (n : Nat) (l : List BetaSeriesArtifact) : Bool :=
  l.all (fun bs => decide (bs.trialCount < n))

/-- Whether `needle` occurs as a contiguous run inside `hay` (used to state
that a warning message mentions a label or a number). -/
def containsChars (needle : List Char) : List Char → Bool
  | [] => needle.isEmpty
  | c :: t => needle.isPrefixOf (c :: t) || containsChars needle t

/-- One `workflow.connect` entry: an edge from field `srcField` of node
`src` to field `dstField` of node `dst`. -/
structure WorkflowEdge where
  src : String
  srcField : String
  dst : String
  dstField : String
deriving DecidableEq

/-- The graph assembled by `init_single_subject_wf`.  In nipype a node
belongs to a workflow exactly when some `workflow.connect` entry mentions
it, so the edge list determines the node set (see `hasNode`). -/
structure SubjectWorkflow where
  edges : List WorkflowEdge
deriving DecidableEq

/-- Python truthiness of the `str or None` parameters `atlas_img` and
`atlas_lut`: `if atlas_img and atlas_lut` (base.py line 366) is skipped for
`None` and also for the empty string (the docstring example passes `''` to
skip the branch), so "provided" means a nonempty string. -/
def truthy : Option String → Bool
  | none => false
  | some s => !s.isEmpty

/-- The unconditional `workflow.connect` block (base.py lines 353-364):
beta-series estimation fed from the input node, and its files sunk with
source-image provenance. -/
def baseEdges : List WorkflowEdge :=
  [⟨"input_node", "preproc_img", "betaseries_wf", "input_node.bold_file"⟩,
   ⟨"input_node", "events_tsv", "betaseries_wf", "input_node.events_file"⟩,
   ⟨"input_node", "brainmask", "betaseries_wf", "input_node.bold_mask_file"⟩,
   ⟨"input_node", "confound_tsv", "betaseries_wf",
     "input_node.confounds_file"⟩,
   ⟨"input_node", "bold_metadata", "betaseries_wf",
     "input_node.bold_metadata"⟩,
   ⟨"betaseries_wf", "output_node.betaseries_files", "output_node",
     "betaseries_file"⟩,
   ⟨"input_node", "preproc_img", "ds_betaseries_file", "source_file"⟩,
   ⟨"output_node", "betaseries_file", "ds_betaseries_file", "in_file"⟩]

/-- The `workflow.connect` block guarded by `if atlas_img and atlas_lut`
(base.py lines 366-399): censoring, the count filter
(`check_beta_series_list`, running `_check_bs_len`), the correlation
sub-graph, and the correlation matrix/figure sinks. -/
def atlasEdges : List WorkflowEdge :=
  [⟨"input_node", "brainmask", "censor_volumes", "mask_file"⟩,
   ⟨"betaseries_wf", "output_node.betaseries_files", "censor_volumes",
     "timeseries_file"⟩,
   ⟨"censor_volumes", "censored_file", "check_beta_series_list",
     "beta_series_list"⟩,
   ⟨"check_beta_series_list", "beta_series_list", "correlation_wf",
     "input_node.betaseries_files"⟩,
   ⟨"input_node", "atlas_img", "correlation_wf", "input_node.atlas_file"⟩,
   ⟨"input_node", "atlas_lut", "correlation_wf", "input_node.atlas_lut"⟩,
   ⟨"correlation_wf", "output_node.correlation_matrix", "output_node",
     "correlation_matrix"⟩,
   ⟨"correlation_wf", "output_node.correlation_fig", "output_node",
     "correlation_fig"⟩,
   ⟨"input_node", "preproc_img", "ds_correlation_matrix", "source_file"⟩,
   ⟨"output_node", "correlation_matrix", "ds_correlation_matrix",
     "in_file"⟩,
   ⟨"input_node", "preproc_img", "ds_correlation_fig", "source_file"⟩,
   ⟨"output_node", "correlation_fig", "ds_correlation_fig", "in_file"⟩]

/-- The `workflow.connect` block guarded by `if return_residuals` (base.py
lines 401-413): residual output routed to the residual-file sink with
source-image provenance. -/
def residualEdges : List WorkflowEdge :=
  [⟨"betaseries_wf", "output_node.residual_file", "output_node",
     "residual_file"⟩,
   ⟨"output_node", "residual_file", "ds_residual_file", "in_file"⟩,
   ⟨"input_node", "preproc_img", "ds_residual_file", "source_file"⟩]

/-- Embedding of the graph construction of `init_single_subject_wf`
(base.py lines 301-415): the unconditional block always, the atlas block
when both `atlas_img` and `atlas_lut` are truthy, the residual block when
`return_residuals` is set.  (Parameters that only parameterize node
contents, not the graph shape, are omitted.) -/
def init_single_subject_wf (atlas_img atlas_lut : Option String)
    (return_residuals : Bool) : SubjectWorkflow :=
  ⟨(if truthy atlas_img && truthy atlas_lut
      then baseEdges ++ atlasEdges
      else baseEdges) ++
    (if return_residuals then residualEdges else [])⟩

/-- A node belongs to the assembled workflow when some connect entry
mentions it (nipype adds the endpoints of every connection to the
workflow). -/
def hasNode (wf : SubjectWorkflow) (n : String) : Bool :=
  wf.edges.any (fun e => e.src == n || e.dst == n)

/-- Whether a given connection was made. -/
def hasEdge (wf : SubjectWorkflow) (e : WorkflowEdge) : Bool :=
  wf.edges.contains e

/-! ### Helper lemmas about the filter -/

lemma check_eq_pass {bs : BetaSeriesArtifact} {m : Nat}
    (h : m ≤ bs.trialCount) : check_beta_series bs m = (true, []) := by
  unfold check_beta_series
  rw [if_neg (Nat.not_lt.mpr h)]

lemma check_eq_fail {bs : BetaSeriesArtifact} {m : Nat}
    (h : bs.trialCount < m) :
    check_beta_series bs m = (false, exclusionWarnings bs m) := by
  unfold check_beta_series
  rw [if_pos h]

lemma check_fst_iff (bs : BetaSeriesArtifact) (m : Nat) :
    (check_beta_series bs m).1 = true ↔ m ≤ bs.trialCount := by
  rcases Nat.lt_or_ge bs.trialCount m with h | h
  · rw [check_eq_fail h]
    simp [Nat.not_le.mpr h]
  · rw [check_eq_pass h]
    simp [h]

lemma mem_filteredOf {l : List BetaSeriesArtifact}
    {bs : BetaSeriesArtifact} :
    bs ∈ filteredOf l ↔ bs ∈ l ∧ min_size ≤ bs.trialCount := by
  simp [filteredOf, List.mem_filter, check_fst_iff]

lemma filteredOf_sublist (l : List BetaSeriesArtifact) :
    (filteredOf l).Sublist l :=
  List.filter_sublist l

lemma filteredOf_eq_self {l : List BetaSeriesArtifact}
    (h : ∀ bs ∈ l, min_size ≤ bs.trialCount) : filteredOf l = l :=
  List.filter_eq_self.mpr fun a ha => (check_fst_iff a min_size).mpr (h a ha)

lemma filteredOf_eq_nil_iff {l : List BetaSeriesArtifact} :
    filteredOf l = [] ↔ ∀ bs ∈ l, bs.trialCount < min_size := by
  simp [filteredOf, List.filter_eq_nil_iff, check_fst_iff, Nat.not_le]

lemma warningsOf_eq_nil {l : List BetaSeriesArtifact}
    (h : ∀ bs ∈ l, min_size ≤ bs.trialCount) : warningsOf l = [] := by
  induction l with
  | nil => rfl
  | cons a t ih =>
      have hs : warningsOf (a :: t) =
          (check_beta_series a min_size).2 ++ warningsOf t := rfl
      rw [hs, check_eq_pass (h a (List.mem_cons_self a t)), List.nil_append]
      exact ih fun bs hbs => h bs (List.mem_cons_of_mem a hbs)

lemma check_bs_len_ok_iff {l st ret : List BetaSeriesArtifact}
    {ws : List String} :
    check_bs_len l = FilterOutcome.ok st ret ws ↔
      filteredOf l ≠ [] ∧ st = filteredOf l ∧ ret = filteredOf l ∧
        ws = warningsOf l := by
  unfold check_bs_len
  split
  next h =>
    simp only [List.isEmpty_iff] at h
    simp [h]
  next h =>
    simp only [List.isEmpty_iff] at h
    constructor
    · intro he
      injection he with h1 h2 h3
      exact ⟨h, h1.symm, h2.symm, h3.symm⟩
    · rintro ⟨-, rfl, rfl, rfl⟩
      rfl

lemma check_bs_len_err_iff {l st : List BetaSeriesArtifact} {msg : String}
    {ws : List String} :
    check_bs_len l = FilterOutcome.err st msg ws ↔
      filteredOf l = [] ∧ st = [] ∧
        msg = "None of the beta series have at least 3 betas." ∧
        ws = warningsOf l := by
  unfold check_bs_len
  split
  next h =>
    simp only [List.isEmpty_iff] at h
    constructor
    · intro he
      injection he with h1 h2 h3
      refine ⟨h, ?_, ?_, h3.symm⟩
      · rw [← h1, h]
      · rw [← h2]
        decide
    · rintro ⟨-, rfl, rfl, rfl⟩
      rw [h]
      congr 1
  next h =>
    simp only [List.isEmpty_iff] at h
    simp [h]

lemma isErr_iff {l : List BetaSeriesArtifact} :
    isErr (check_bs_len l) = true ↔ filteredOf l = [] := by
  unfold check_bs_len
  split
  next h =>
    simp only [List.isEmpty_iff] at h
    simp [isErr, h]
  next h =>
    simp only [List.isEmpty_iff] at h
    simp [isErr, h]

lemma check_bs_len_all_pass {l : List BetaSeriesArtifact} (hne : l ≠ [])
    (h : ∀ bs ∈ l, min_size ≤ bs.trialCount) :
    check_bs_len l = FilterOutcome.ok l l [] := by
  have hf : filteredOf l = l := filteredOf_eq_self h
  have hw : warningsOf l = [] := warningsOf_eq_nil h
  exact check_bs_len_ok_iff.mpr ⟨by rw [hf]; exact hne, hf.symm, hf.symm,
    hw.symm⟩

lemma reMatchDesc_append {ys : List Char} (xs : List Char)
    (hnl : '\n' ∉ xs) (hys : (reMatchDesc ys).isSome = true) :
    reMatchDesc (xs ++ ys) = reMatchDesc ys := by
  induction xs with
  | nil => rfl
  | cons c cs ih =>
      have hc : ¬ c = '\n' := fun h => hnl (h ▸ List.mem_cons_self c cs)
      have hcs : '\n' ∉ cs := fun h => hnl (List.mem_cons_of_mem c h)
      obtain ⟨lbl, hl⟩ := Option.isSome_iff_exists.mp hys
      have ih2 : reMatchDesc (cs ++ ys) = some lbl := (ih hcs).trans hl
      show reMatchDesc (c :: (cs ++ ys)) = reMatchDesc ys
      rw [reMatchDesc, if_neg hc, ih2, hl]

/-! ### Claim theorems -/

/-- C1: every artifact whose trial count is at least 3 is retained by the
trial-count filter, every artifact whose trial count is below 3 is
excluded, and every artifact in a successfully returned collection has
trial count at least 3 (minimum constant = 3). -/
theorem trial_filter_threshold (l : List BetaSeriesArtifact)
    (bs : BetaSeriesArtifact) :
    (bs ∈ l → 3 ≤ bs.trialCount → bs ∈ filteredOf l) ∧
    (bs.trialCount < 3 → bs ∉ filteredOf l) ∧
    (∀ st ret ws, check_bs_len l = FilterOutcome.ok st ret ws →
      ∀ b ∈ ret, 3 ≤ b.trialCount) := by
  refine ⟨fun h1 h2 => mem_filteredOf.mpr ⟨h1, h2⟩, fun hlt hmem => ?_, ?_⟩
  · exact absurd (mem_filteredOf.mp hmem).2 (Nat.not_le.mpr hlt)
  · intro st ret ws hok b hb
    rcases check_bs_len_ok_iff.mp hok with ⟨-, -, hret, -⟩
    exact (mem_filteredOf.mp (hret ▸ hb)).2

/-- Witness for C1 at a concrete input: in `[p(5), q(1)]` the artifact with
5 trials is retained and the artifact with 1 trial is excluded. -/
theorem trial_filter_threshold_witness :
    (⟨"p", 5⟩ : BetaSeriesArtifact) ∈ filteredOf [⟨"p", 5⟩, ⟨"q", 1⟩] ∧
    (⟨"q", 1⟩ : BetaSeriesArtifact) ∉ filteredOf [⟨"p", 5⟩, ⟨"q", 1⟩] :=
  ⟨(trial_filter_threshold [⟨"p", 5⟩, ⟨"q", 1⟩] ⟨"p", 5⟩).1 (by decide)
      (by decide),
   (trial_filter_threshold [⟨"p", 5⟩, ⟨"q", 1⟩] ⟨"q", 1⟩).2.1 (by decide)⟩

/-- C2 counterexample: on the all-excluded error path the filter does make
a state change before raising — the slice assignment empties the caller's
list, so after the raising call the collection `[a(1)]` has become `[]`,
not its original contents. -/
theorem trial_filter_error_mutation_cex :
    allBelow 3 [⟨"a", 1⟩] = true ∧
    isErr (check_bs_len [⟨"a", 1⟩]) = true ∧
    stateOf (check_bs_len [⟨"a", 1⟩]) = [] ∧
    ([] : List BetaSeriesArtifact) ≠ [⟨"a", 1⟩] := by
  exact ⟨by decide, by decide, by decide, by decide⟩

/-- C2 amended: if every artifact has trial count below 3 the filter raises
`RuntimeError("None of the beta series have at least 3 betas.")` and
returns no result; it raises exactly when the filtered sequence is empty
(equivalently, when every artifact has trial count below 3); on that path
the raised message and the absence of a returned value are as stated, but
the caller's list has been emptied by the in-place filtering that runs
before the emptiness test. -/
theorem trial_filter_error_path (l : List BetaSeriesArtifact) :
    ((∀ bs ∈ l, bs.trialCount < 3) →
      check_bs_len l = FilterOutcome.err []
        "None of the beta series have at least 3 betas." (warningsOf l)) ∧
    (isErr (check_bs_len l) = true ↔ ∀ bs ∈ l, bs.trialCount < 3) ∧
    (∀ st msg ws, check_bs_len l = FilterOutcome.err st msg ws →
      st = [] ∧ msg = "None of the beta series have at least 3 betas." ∧
      resultOf (check_bs_len l) = none) := by
  refine ⟨fun h => ?_, isErr_iff.trans filteredOf_eq_nil_iff, ?_⟩
  · exact check_bs_len_err_iff.mpr ⟨filteredOf_eq_nil_iff.mpr h, rfl, rfl,
      rfl⟩
  · intro st msg ws herr
    rcases check_bs_len_err_iff.mp herr with ⟨-, hst, hmsg, -⟩
    exact ⟨hst, hmsg, by rw [herr]; rfl⟩

/-- Witness for C2 at a concrete input: `[q(1)]` makes the filter raise
with the recorded message. -/
theorem trial_filter_error_path_witness :
    check_bs_len [⟨"q", 1⟩] = FilterOutcome.err []
      "None of the beta series have at least 3 betas."
      (warningsOf [⟨"q", 1⟩]) :=
  (trial_filter_error_path [⟨"q", 1⟩]).1 (by decide)

/-- C3: the filter's output is a subsequence of the input — survivors keep
their original relative order, nothing is reordered, duplicated, or
introduced. -/
theorem trial_filter_subsequence (l : List BetaSeriesArtifact) :
    (filteredOf l).Sublist l ∧
    (∀ st ret ws, check_bs_len l = FilterOutcome.ok st ret ws →
      ret.Sublist l) := by
  refine ⟨filteredOf_sublist l, fun st ret ws hok => ?_⟩
  rcases check_bs_len_ok_iff.mp hok with ⟨-, -, hret, -⟩
  rw [hret]
  exact filteredOf_sublist l

/-- Witness for C3 at a concrete input. -/
theorem trial_filter_subsequence_witness :
    (filteredOf [⟨"p", 5⟩, ⟨"q", 1⟩, ⟨"r", 4⟩]).Sublist
      [⟨"p", 5⟩, ⟨"q", 1⟩, ⟨"r", 4⟩] :=
  (trial_filter_subsequence [⟨"p", 5⟩, ⟨"q", 1⟩, ⟨"r", 4⟩]).1

/-- C8: the filter mutates the given collection in place — after a
successful call the caller's list contains exactly the surviving artifacts
in original order — and the returned value is that same mutated
collection. -/
theorem trial_filter_in_place (l st ret : List BetaSeriesArtifact)
    (ws : List String) (h : check_bs_len l = FilterOutcome.ok st ret ws) :
    st = filteredOf l ∧ ret = st ∧ stateOf (check_bs_len l) = ret := by
  rcases check_bs_len_ok_iff.mp h with ⟨-, hst, hret, -⟩
  exact ⟨hst, hret.trans hst.symm, by rw [h]; exact (hret.trans hst.symm).symm⟩

/-- Witness for C8 at a concrete input: filtering `[p(5), q(1)]` leaves the
list holding `[p(5)]` and returns it. -/
theorem trial_filter_in_place_witness :
    ([⟨"p", 5⟩] : List BetaSeriesArtifact) =
      filteredOf [⟨"p", 5⟩, ⟨"q", 1⟩] ∧
    ([⟨"p", 5⟩] : List BetaSeriesArtifact) = [⟨"p", 5⟩] ∧
    stateOf (check_bs_len [⟨"p", 5⟩, ⟨"q", 1⟩]) = [⟨"p", 5⟩] :=
  trial_filter_in_place [⟨"p", 5⟩, ⟨"q", 1⟩] [⟨"p", 5⟩] [⟨"p", 5⟩]
    (warningsOf [⟨"p", 5⟩, ⟨"q", 1⟩]) (by decide)

/-- C9 counterexample: the empty collection vacuously has every artifact at
trial count 3 or more, yet the filter does not return it unchanged — it
raises, because the filtered sequence is empty. -/
theorem trial_filter_empty_input_cex :
    allAtLeast 3 ([] : List BetaSeriesArtifact) = true ∧
    isErr (check_bs_len []) = true ∧
    resultOf (check_bs_len []) = none := by
  exact ⟨by decide, by decide, by decide⟩

/-- C9 amended: for every nonempty collection in which every artifact has
trial count at least 3 the filter returns the collection unchanged (and
logs nothing), and for every input on which the filter succeeds, applying
it a second time to its own output returns that output unchanged — the
filter is idempotent on its success range. -/
theorem trial_filter_idempotent (l : List BetaSeriesArtifact) :
    (l ≠ [] → (∀ bs ∈ l, 3 ≤ bs.trialCount) →
      check_bs_len l = FilterOutcome.ok l l []) ∧
    (∀ st ret ws, check_bs_len l = FilterOutcome.ok st ret ws →
      check_bs_len ret = FilterOutcome.ok ret ret []) := by
  refine ⟨fun hne h => check_bs_len_all_pass hne h, ?_⟩
  intro st ret ws hok
  rcases check_bs_len_ok_iff.mp hok with ⟨hne, -, hret, -⟩
  have hall : ∀ bs ∈ ret, min_size ≤ bs.trialCount := fun bs hbs =>
    (mem_filteredOf.mp (hret ▸ hbs)).2
  exact check_bs_len_all_pass (hret ▸ hne) hall

/-- Witness for C9 at a concrete input: `[p(5)]` is returned unchanged and
refiltering the output is a no-op. -/
theorem trial_filter_idempotent_witness :
    check_bs_len [⟨"p", 5⟩] = FilterOutcome.ok [⟨"p", 5⟩] [⟨"p", 5⟩] [] :=
  (trial_filter_idempotent [⟨"p", 5⟩]).1 (by decide) (by decide)

/-- C4: the censoring step, the count-filter node, the correlation
sub-graph, and the correlation-matrix and correlation-figure sinks belong
to the single-subject workflow (and the branch's connections are made)
exactly when both `atlas_img` and `atlas_lut` are provided (truthy); in
particular when both are absent none of these nodes exist in the
workflow. -/
theorem correlation_branch_iff (atlas_img atlas_lut : Option String)
    (rr : Bool) :
    ((truthy atlas_img && truthy atlas_lut) = true ↔
      hasNode (init_single_subject_wf atlas_img atlas_lut rr)
        "censor_volumes" = true) ∧
    ((truthy atlas_img && truthy atlas_lut) = true ↔
      hasNode (init_single_subject_wf atlas_img atlas_lut rr)
        "check_beta_series_list" = true) ∧
    ((truthy atlas_img && truthy atlas_lut) = true ↔
      hasNode (init_single_subject_wf atlas_img atlas_lut rr)
        "correlation_wf" = true) ∧
    ((truthy atlas_img && truthy atlas_lut) = true ↔
      hasNode (init_single_subject_wf atlas_img atlas_lut rr)
        "ds_correlation_matrix" = true) ∧
    ((truthy atlas_img && truthy atlas_lut) = true ↔
      hasNode (init_single_subject_wf atlas_img atlas_lut rr)
        "ds_correlation_fig" = true) ∧
    ((truthy atlas_img && truthy atlas_lut) = true ↔
      hasEdge (init_single_subject_wf atlas_img atlas_lut rr)
        ⟨"censor_volumes", "censored_file", "check_beta_series_list",
          "beta_series_list"⟩ = true) ∧
    ((truthy atlas_img && truthy atlas_lut) = true ↔
      hasEdge (init_single_subject_wf atlas_img atlas_lut rr)
        ⟨"check_beta_series_list", "beta_series_list", "correlation_wf",
          "input_node.betaseries_files"⟩ = true) ∧
    ((truthy atlas_img && truthy atlas_lut) = true ↔
      hasEdge (init_single_subject_wf atlas_img atlas_lut rr)
        ⟨"output_node", "correlation_matrix", "ds_correlation_matrix",
          "in_file"⟩ = true) ∧
    ((truthy atlas_img && truthy atlas_lut) = true ↔
      hasEdge (init_single_subject_wf atlas_img atlas_lut rr)
        ⟨"output_node", "correlation_fig", "ds_correlation_fig",
          "in_file"⟩ = true) := by
  cases h1 : truthy atlas_img <;> cases h2 : truthy atlas_lut <;>
    cases rr <;> simp only [init_single_subject_wf, h1, h2] <;> decide

/-- Witness for C4 at concrete inputs: with both atlas arguments provided
the censoring node exists; the theorem's reverse direction at absent atlas
arguments shows it cannot then exist. -/
theorem correlation_branch_iff_witness :
    hasNode (init_single_subject_wf (some "atlas.nii.gz") (some "lut.tsv")
      false) "censor_volumes" = true :=
  (correlation_branch_iff (some "atlas.nii.gz") (some "lut.tsv")
    false).1.mp (by decide)

/-- C7: the residual-file sink exists in the single-subject workflow (with
its three connections: residuals routed out of the beta-series sub-graph
and into the sink, tagged with the source preprocessed image) exactly when
`return_residuals` is set. -/
theorem residual_branch_iff (atlas_img atlas_lut : Option String)
    (rr : Bool) :
    (rr = true ↔
      hasNode (init_single_subject_wf atlas_img atlas_lut rr)
        "ds_residual_file" = true) ∧
    (rr = true ↔
      hasEdge (init_single_subject_wf atlas_img atlas_lut rr)
        ⟨"betaseries_wf", "output_node.residual_file", "output_node",
          "residual_file"⟩ = true) ∧
    (rr = true ↔
      hasEdge (init_single_subject_wf atlas_img atlas_lut rr)
        ⟨"output_node", "residual_file", "ds_residual_file",
          "in_file"⟩ = true) ∧
    (rr = true ↔
      hasEdge (init_single_subject_wf atlas_img atlas_lut rr)
        ⟨"input_node", "preproc_img", "ds_residual_file",
          "source_file"⟩ = true) := by
  cases h1 : truthy atlas_img <;> cases h2 : truthy atlas_lut <;>
    cases rr <;> simp only [init_single_subject_wf, h1, h2] <;> decide

/-- Witness for C7 at a concrete input: with the flag set the residual sink
exists even when no atlas is given. -/
theorem residual_branch_iff_witness :
    hasNode (init_single_subject_wf none none true) "ds_residual_file" =
      true :=
  (residual_branch_iff none none true).1.mp rfl

/-- C5: `sub-01_desc-FACES_betaseries.nii.gz` with trailing dimension 2 is
excluded with a warning referencing `FACES`, and
`sub-01_betaseries_x.nii.gz` with trailing dimension 1 is excluded with a
warning referencing `UNKNOWN`; each exclusion warning contains the label,
the minimum required (3), and the actual count. -/
theorem filter_warning_examples :
    check_beta_series ⟨"sub-01_desc-FACES_betaseries.nii.gz", 2⟩ 3 =
      (false,
        ["At least 3 trials are needed for a beta series: FACES has 2"]) ∧
    check_beta_series ⟨"sub-01_betaseries_x.nii.gz", 1⟩ 3 =
      (false,
        ["this file: sub-01_betaseries_x.nii.gz contains an unknown " ++
           "trial_type",
         "At least 3 trials are needed for a beta series: UNKNOWN has 1"]) ∧
    containsChars ("FACES").toList
      (sizeWarning 3 "FACES" 2).toList = true ∧
    containsChars ("3").toList (sizeWarning 3 "FACES" 2).toList = true ∧
    containsChars ("2").toList (sizeWarning 3 "FACES" 2).toList = true ∧
    containsChars ("UNKNOWN").toList
      (sizeWarning 3 "UNKNOWN" 1).toList = true ∧
    containsChars ("3").toList (sizeWarning 3 "UNKNOWN" 1).toList = true ∧
    containsChars ("1").toList (sizeWarning 3 "UNKNOWN" 1).toList = true := by
  exact ⟨by decide, by decide, by decide, by decide, by decide, by decide,
    by decide, by decide⟩

/-- C6 counterexample: an artifact whose filename has no `desc-…_` segment
but whose trial count reaches the minimum is retained without any warning —
the regex (and hence the unparsable-name warning) only runs on the
exclusion branch, not for every artifact. -/
theorem retained_unparsable_no_warning_cex :
    reMatchDesc ("sub-01_betaseries_x.nii.gz").toList = none ∧
    check_beta_series ⟨"sub-01_betaseries_x.nii.gz", 3⟩ 3 = (true, []) ∧
    warningsOf [⟨"sub-01_betaseries_x.nii.gz", 3⟩] = [] := by
  exact ⟨by decide, by decide, by decide⟩

/-- C6 amended: label determination happens only for artifacts being
excluded (trial count below the minimum).  A retained artifact produces no
warning at all; an excluded artifact with an unparsable filename produces
the unparsable-name warning followed by the exclusion warning with label
`UNKNOWN`; an excluded artifact with a parsable filename produces only the
exclusion warning with the extracted label. -/
theorem check_warnings_characterization (bs : BetaSeriesArtifact) :
    (min_size ≤ bs.trialCount →
      check_beta_series bs min_size = (true, [])) ∧
    (bs.trialCount < min_size → reMatchDesc bs.path.toList = none →
      (check_beta_series bs min_size).2 =
        [unknownWarning bs.path,
         sizeWarning min_size "UNKNOWN" bs.trialCount]) ∧
    (∀ lbl, bs.trialCount < min_size →
      reMatchDesc bs.path.toList = some lbl →
      (check_beta_series bs min_size).2 =
        [sizeWarning min_size (String.mk lbl) bs.trialCount]) := by
  refine ⟨check_eq_pass, fun h hnone => ?_, fun lbl h hsome => ?_⟩
  · rw [check_eq_fail h]
    show exclusionWarnings bs min_size = _
    unfold exclusionWarnings
    rw [hnone]
  · rw [check_eq_fail h]
    show exclusionWarnings bs min_size = _
    unfold exclusionWarnings
    rw [hsome]

/-- Witness for C6 at a concrete input: an excluded artifact with an
unparsable name yields exactly the two warnings. -/
theorem check_warnings_characterization_witness :
    (check_beta_series ⟨"x", 1⟩ min_size).2 =
      [unknownWarning "x", sizeWarning min_size "UNKNOWN" 1] :=
  (check_warnings_characterization ⟨"x", 1⟩).2.1 (by decide) (by decide)

/-- C10 counterexample: the label is not always taken from the last
`desc-…_` segment of the path — the dots of the Python pattern do not
match a newline, so in `desc-AA_x\ndesc-BB_y` a later matching segment
(`desc-BB_`) exists, yet the reported label comes from the earlier segment
`AA`. -/
theorem trial_type_newline_cex :
    matchDescAt (("desc-AA_x\ndesc-BB_y").toList.drop 10) =
      some ("BB").toList ∧
    reMatchDesc ("desc-AA_x\ndesc-BB_y").toList = some ("AA").toList ∧
    some (("AA").toList) ≠ some (("BB").toList) := by
  exact ⟨by decide, by decide, by decide⟩

/-- C10 amended: the label is extracted from the entire path string (a
`desc-…_` segment in a directory component supplies it), and the greedy
leading wildcard makes the last matching segment win as long as no newline
precedes it: prefixing any newline-free text onto a path whose regex match
succeeds leaves the extracted label unchanged. -/
theorem trial_type_last_segment (xs ys : List Char) (hnl : '\n' ∉ xs)
    (hys : (reMatchDesc ys).isSome = true) :
    reMatchDesc (xs ++ ys) = reMatchDesc ys ∧
    reMatchDesc ("/data/desc-DIR1_files/sub-01_betaseries.nii.gz").toList =
      some ("DIR1").toList ∧
    check_beta_series
        ⟨"/data/desc-DIR1_files/sub-01_betaseries.nii.gz", 2⟩ 3 =
      (false, [sizeWarning 3 "DIR1" 2]) ∧
    reMatchDesc ("sub-01_desc-AA_desc-BB_betaseries.nii.gz").toList =
      some ("BB").toList :=
  ⟨reMatchDesc_append xs hnl hys, by decide, by decide, by decide⟩

/-- Witness for C10 at a concrete input: prefixing `sub-01_` onto
`desc-BB_x` does not change the extracted label. -/
theorem trial_type_last_segment_witness :
    reMatchDesc (("sub-01_").toList ++ ("desc-BB_x").toList) =
      reMatchDesc ("desc-BB_x").toList :=
  (trial_type_last_segment ("sub-01_").toList ("desc-BB_x").toList
    (by decide) (by decide)).1

end NiBetaSeries
